import Mathlib

/-!
Verification development for the retrieval-and-reasoning agent core
(package profsandman_agents: agents.py, llms.py, chunkers.py,
vector_databases.py, text_extractors.py, token_counters.py).

Modelling conventions.

External collaborators (the hosted OpenAI model, the chromadb index,
tiktoken, pandas/sqlite execution) are modelled as oracle functions
supplied in small environment structures; everything the repository
itself computes is translated directly from the Python source.

Python floats appear only in order comparisons (distance thresholds),
so distances are modelled as rationals; no float arithmetic is done
by the code under verification.

A Python function that can raise is modelled as an Except value; the
number of outbound model/network calls a method makes is returned as
an explicit counter so that claims about call counts are statable.
-/

set_option autoImplicit false

namespace ProfsandmanAgents

/-- Python string membership test `needle in hay` restricted to character
lists: `isPrefixList n h` is true when `n` is an initial segment of `h`. -/
def isPrefixList : List Char → List Char → Bool
  | [], _ => true
  | _ :: _, [] => false
  | a :: as, b :: bs => a == b && isPrefixList as bs

/-- Substring occurrence on character lists (Python `in` on strings). -/
def hasSubList (needle : List Char) : List Char → Bool
  | [] => isPrefixList needle []
  | b :: bs => isPrefixList needle (b :: bs) || hasSubList needle bs

/-- Python `needle in hay` for strings. -/
def pyIn (needle hay : String) : Bool :=
  hasSubList needle.toList hay.toList

/-- Predicate `strInfix s t` holds when `s` occurs contiguously inside `t`. -/
def strInfix (s t : String) : Prop :=
  ∃ pre post : String, t = pre ++ s ++ post

/-- Python `"sep".join(parts)`. -/
def pyJoin (sep : String) : List String → String
  | [] => ""
  | [x] => x
  | x :: y :: rest => x ++ sep ++ pyJoin sep (y :: rest)

/-- Python `min(list)` for a list of rationals: `none` models the
`ValueError` that `min` raises on an empty sequence. -/
def pyMin : List ℚ → Option ℚ
  | [] => none
  | x :: xs => some (xs.foldl min x)

-- ==============================================================
-- ChromaAgent (agents.py lines 135-216)
-- ==============================================================

/-- Oracle view of `BaseVectorDB` as the agent uses it: an optionally
attached collection (`collection_`, an opaque handle modelled by its
name) and the external `retrieve` behaviour returning parallel lists of
chunk texts and distances. -/
structure VectorDB where
  collection_ : Option String
  retrieve : String → Nat → List String × List ℚ

/-- Oracle view of `BaseLLM.query`: free-text completion under the
default system prompt, prompt ↦ response text. -/
structure LLM where
  query : String → String

/-- The state a constructed `ChromaAgent` holds: `llm_` and `vectordb_`
exactly as stored by `__init__`. -/
structure ChromaAgent where
  llm_ : LLM
  vectordb_ : VectorDB

/-- Constructor `ChromaAgent.__init__`: stores `llm` and `vectordb`, then raises
`ValueError` when no collection is attached to the vector database. -/
def chromaInit (llm : LLM) (vectordb : VectorDB) : Except String ChromaAgent :=
  if vectordb.collection_ = none then
    .error "No collection attached to the vector database."
  else
    .ok { llm_ := llm, vectordb_ := vectordb }

/-- System-role preamble built inside `ChromaAgent.query`. -/
def ragSystemPrompt : String :=
  "You are an intelligent AI assistant answering a question generated from retrieval augmented generation. " ++
  "Use the provided context to answer " ++
  "the question accurately and concisely. If the context is insufficient, state that " ++
  "you don\x27t have enough information rather than making assumptions.\n" ++
  "NEVER reference the context you received, simply use it to answer the question.\n\n"

/-- The context string the query builds: the retrieved docs, each
prefixed with a dash, joined on blank lines. -/
def ragContextStr (docs : List String) : String :=
  pyJoin "\n\n" (docs.map (fun doc => "- " ++ doc))

/-- The field `self.prompt_` as assembled by `ChromaAgent.query`. -/
def ragPrompt (docs : List String) (prompt : String) : String :=
  ragSystemPrompt ++ "### Context ###\n" ++ ragContextStr docs ++
    "\n\n### Question ###\n" ++ prompt

/-- Method `ChromaAgent.query`.  First component: `.error` models an uncaught
Python exception, `.ok none` the confidence-gated refusal (`return
None`), `.ok (some s)` a generated answer.  Second component: how many
free-text completion calls were issued to the language-model gateway. -/
def chromaQuery (agent : ChromaAgent) (prompt : String) (k : Nat)
    (max_distance : ℚ) : Except String (Option String) × Nat :=
  let res := agent.vectordb_.retrieve prompt k
  let docs := res.1
  let distances := res.2
  match pyMin distances with
  | none => (.error "ValueError: min() arg is an empty sequence", 0)
  | some mindist =>
    if max_distance < mindist then
      (.ok none, 0)
    else
      let prompt_ := ragPrompt docs prompt
      (.ok (some (agent.llm_.query prompt_)), 1)

-- ==============================================================
-- SQLiteAgent (agents.py lines 223-348)
-- ==============================================================

/-- Pydantic `SQLResponse`: the parsed structured completion. -/
structure SQLResponse where
  sql_query : String
  explanation : String
  deriving DecidableEq

/-- Outcome of `pd.read_sql(sql, engine)` as the agent observes it: an
exception (message and formatted traceback), an empty result set, or a
non-empty result set rendered to records-oriented JSON. -/
inductive ExecOutcome where
  | err (msg trace : String)
  | emptyTable
  | table (json : String)
  deriving DecidableEq

/-- Oracles for `SQLiteAgent.query`: `gen` is
`llm.structured_query(SQLResponse, ...)` indexed by the number of
structured calls already made (so an arbitrary response sequence is
representable), `exec` is SQL execution against the engine, and
`summarize` is the follow-up `llm.query` (the empty string models a
falsy completion). -/
structure SQLiteEnv where
  gen : Nat → String → String → SQLResponse
  exec : String → ExecOutcome
  summarize : String → String

/-- The `system_prompt` literal of `SQLiteAgent.query`. -/
def sqliteSystemPrompt : String :=
  "You are an expert in converting real world questions into SQL queries.\n" ++
  "Your job is to take the question below and use the provided database architecture to convert the question into a SQLite query.\n\n" ++
  "You are to respond both a SQL query required to answer the provided question and a short explanation of the query.\n" ++
  "When you generate the SQL query, make sure to return it with proper syntax for SQLite and make it legible.\n" ++
  "Example Question: \"I want to know every type of car that was sold\"\n" ++
  "Example Response: \"SELECT DISTINCT car_type FROM Car_Sales\"\n\n" ++
  "Example Explanation: \"The Car_Sales table has information on the total units of sales, including the brands of the car.\""

/-- The `query` text of `SQLiteAgent.query`, which depends on whether a
database description was supplied at construction. -/
def sqliteBaseQuery (db_desc : Option String) (schema_json prompt : String) : String :=
  match db_desc with
  | some d =>
      "Given the following SQLite database description and architecture, please answer the following question:\n\n" ++
      "Database Description:\n" ++ d ++ "\n\nDatabase Architecture:\n" ++ schema_json ++ "\n\n" ++
      "Question:\n" ++ prompt
  | none =>
      "Given the following SQLite database architecture, please answer the following question:\n\n" ++
      "Database Architecture:\n" ++ schema_json ++ "\n\n" ++
      "Question:\n" ++ prompt

/-- The retry-path system prompt (`retry_system_prompt`). -/
def sqliteRetrySystemPrompt : String :=
  sqliteSystemPrompt ++ "\n\nYour previous SQL query failed. Please fix the issues and try again."

/-- The retry-path user prompt (`retry_query`). -/
def sqliteRetryQuery (query prevSql error_context schema_json : String) : String :=
  query ++ "\n\nPrevious failed SQL query:\n" ++ prevSql ++
    "\n\nError details:\n" ++ error_context ++
    "\n\nDatabase Architecture:\n" ++ schema_json

/-- The summarization prompt (`answer_prompt`). -/
def sqlAnswerPrompt (prompt sql_query json : String) : String :=
  "Given the following question, SQL query, and supporting data, " ++
  "please provide a clear and concise answer to the user’s question.\n\n" ++
  "Question:\n" ++ prompt ++ "\n\n" ++
  "SQL Query:\n" ++ sql_query ++ "\n\n" ++
  "Supporting Data:\n" ++ json

/-- Terminal message for an empty result set. -/
def sqliteNoResultsMsg : String :=
  "The query ran successfully, but no results were found in the database."

/-- Fallback when the summarization completion is falsy. -/
def sqliteSummaryFallback : String :=
  "I ran the query but couldn’t summarize the results clearly."

/-- Terminal failure message after exhausting retries (the source
prefixes a warning emoji, stored in the file as UTF-8). -/
def sqlFailMsg (retries : Nat) (e : String) : String :=
  "⚠️ SQL query failed after " ++ toString (retries + 1) ++ " attempt(s): " ++ e

/-- The dead-code return after the `while` loop in the source. -/
def sqliteAllFailedMsg : String :=
  "❌ All attempts to query the database failed."

/-- The structured generation done in one iteration: the retry prompts
are used from the second attempt on (`if attempts > 0` in the source). -/
def sqliteGenResponse (env : SQLiteEnv) (query schema_json : String)
    (attempts calls : Nat) (prevSql error_context : String) : SQLResponse :=
  if 0 < attempts then
    env.gen calls sqliteRetrySystemPrompt
      (sqliteRetryQuery query prevSql error_context schema_json)
  else
    env.gen calls sqliteSystemPrompt query

/-- The `while attempts <= retries` loop of `SQLiteAgent.query`.
`calls` counts structured-completion generations made so far (at loop
entry it always equals `attempts`); `prevSql` and `error_context` are
`self.response_.sql_query` and `error_context` from the previous
iteration.  Returns the string `query` returns together with the total
number of structured-completion calls performed. -/
def sqliteQueryLoop (env : SQLiteEnv) (prompt query schema_json : String)
    (retries : Nat) (attempts calls : Nat) (prevSql error_context : String) :
    String × Nat :=
  if _h : attempts ≤ retries then
    let response := sqliteGenResponse env query schema_json attempts calls prevSql error_context
    match env.exec response.sql_query with
    | .emptyTable => (sqliteNoResultsMsg, calls + 1)
    | .table json =>
        let summary := env.summarize (sqlAnswerPrompt prompt response.sql_query json)
        (if summary = "" then sqliteSummaryFallback else summary, calls + 1)
    | .err m tr =>
        if h2 : retries ≤ attempts then
          (sqlFailMsg retries m, calls + 1)
        else
          sqliteQueryLoop env prompt query schema_json retries
            (attempts + 1) (calls + 1) response.sql_query (m ++ "\n\n" ++ tr)
  else
    (sqliteAllFailedMsg, calls)
termination_by retries + 1 - attempts
decreasing_by omega

/-- Method `SQLiteAgent.query(prompt, view_sql, retries)` (printing omitted):
result string and number of structured-completion generations. -/
def sqliteQuery (env : SQLiteEnv) (prompt : String) (db_desc : Option String)
    (schema_json : String) (retries : Nat) : String × Nat :=
  sqliteQueryLoop env prompt (sqliteBaseQuery db_desc schema_json prompt)
    schema_json retries 0 0 "" ""

/-- Concrete environment whose SQL execution always raises. -/
def sqlEnvAllFail : SQLiteEnv where
  gen := fun _ _ _ => ⟨"SELECT 1", "x"⟩
  exec := fun _ => .err "no such table: t" "Traceback"
  summarize := fun _ => "summary"

/-- Concrete environment: the first generated query raises, the second
succeeds with a non-empty result set. -/
def sqlEnvRepair : SQLiteEnv where
  gen := fun i _ _ => if i = 0 then ⟨"BAD SQL", "e0"⟩ else ⟨"GOOD SQL", "e1"⟩
  exec := fun q => if q = "BAD SQL" then .err "syntax error" "Traceback" else .table "rows-json"
  summarize := fun _ => "final answer"

-- ==============================================================
-- OpenAILLM (llms.py)
-- ==============================================================

/-- The supported-model table with published context limits. -/
def OPENAI_TOKEN_LIMITS : List (String × Nat) :=
  [("gpt-4", 32768), ("gpt-4-turbo", 131072), ("gpt-4o", 128000),
   ("gpt-4o-mini", 128000), ("o3-mini", 200000)]

/-- Safety margin added to the prompt token count. -/
def SAFETY_LIM : Nat := 1000

/-- Dictionary access `OPENAI_TOKEN_LIMITS[model]`. -/
def tokenLimitOf (model : String) : Option Nat :=
  OPENAI_TOKEN_LIMITS.lookup model

/-- Oracle for the hosted OpenAI service: chat completion and parsed
structured completion over a (role, content) message list. -/
structure OpenAINet where
  complete : List (String × String) → String
  completeParsed : List (String × String) → String

/-- The parts of a constructed `OpenAILLM` the budget check uses: the
configured model name and `OpenAITokenCounter.count_tokens` (tiktoken,
external, hence an oracle). -/
structure OpenAIModel where
  model : String
  count : String → Nat

/-- Validation `OpenAILLM._check_model_exists`. -/
def checkModelExists (model : String) : Except String Unit :=
  if (tokenLimitOf model).isSome then .ok ()
  else .error ("Model " ++ model ++ " not supported. Please use a supported model.")

/-- The `ValueError` text raised by `_check_token_limit`. -/
def overBudgetMsg (token_count model_limit : Nat) : String :=
  "Text is too long for the model. Token count: " ++ toString token_count ++
    ", limit: " ++ toString model_limit ++ "."

/-- Check `OpenAILLM._check_token_limit`: raises when
`token_count + SAFETY_LIM > model_limit`. -/
def checkTokenLimit (cfg : OpenAIModel) (text : String) : Except String Unit :=
  let token_count := cfg.count text
  match tokenLimitOf cfg.model with
  | none => .error "KeyError"
  | some model_limit =>
    if model_limit < token_count + SAFETY_LIM then
      .error (overBudgetMsg token_count model_limit)
    else
      .ok ()

/-- Helper `OpenAILLM._build_message` for a string prompt: defaults the system
prompt and builds the two-turn message list. -/
def buildMessage (prompt : String) (system_prompt : Option String) :
    List (String × String) :=
  let sys := system_prompt.getD "You are a helpful AI assistant."
  [("system", sys), ("user", prompt)]

/-- Method `OpenAILLM.query`: budget check, then one chat-completion request.
Second component counts requests actually sent to the service. -/
def openaiQuery (net : OpenAINet) (cfg : OpenAIModel) (prompt : String)
    (system_prompt : Option String) : Except String String × Nat :=
  match checkTokenLimit cfg prompt with
  | .error e => (.error e, 0)
  | .ok _ => (.ok (net.complete (buildMessage prompt system_prompt)), 1)

/-- Method `OpenAILLM.structured_query`: budget check, then one parsed
structured-completion request (the parsed payload is abstracted to the
string the oracle returns). -/
def openaiStructuredQuery (net : OpenAINet) (cfg : OpenAIModel) (prompt : String)
    (system_prompt : Option String) : Except String String × Nat :=
  match checkTokenLimit cfg prompt with
  | .error e => (.error e, 0)
  | .ok _ => (.ok (net.completeParsed (buildMessage prompt system_prompt)), 1)

/-- A concrete network oracle for witnesses. -/
def llmNetW : OpenAINet where
  complete := fun _ => "completion"
  completeParsed := fun _ => "parsed"

/-- A concrete over-budget configuration: `gpt-4` with a token counter
that reports 200000 tokens for every text. -/
def llmCfgOver : OpenAIModel where
  model := "gpt-4"
  count := fun _ => 200000

-- ==============================================================
-- SemanticChunker (chunkers.py lines 205-303)
-- ==============================================================

/-- Safety divisor applied to the model context limit. -/
def SAFETY_DIVISOR : Nat := 4

/-- Target token ceiling for chunks. -/
def DESIRED_CHUNK_TOKENS : Nat := 450

/-- Constant `PROMPT_BASE` from chunkers.py. -/
def chunkPromptBase : String :=
  "## Objective:\nSplit the following text into optimally sized chunks while preserving semantic coherence and contextual relevance for the sake of retrieval-augmented generation (RAG).\n\n" ++
  "## Ideal Chunk Definition:\nThe ideal chunk is one that is large enough to provide sufficient context for retrieval yet small enough to maximize relevance and minimize noise. \n" ++
  "The chunk should be semantically coherent, meaning it should encapsulate a complete thought, topic, or logical section of the text.\n\n" ++
  "## Instructions  \n\n### 1. Chunk Size Considerations  \n- Prioritize **paragraph-level** segmentation.  \n- If a section is too long, intelligently break it at logical stopping points (e.g., sentence transitions, topic shifts).  \n\n" ++
  "### 2. Preserving Context & Meaning  \n- Ensure that **definitions, examples, and explanations remain together** in a single chunk.  \n- Keep **lists, tables, or code snippets intact** with their explanations.  \n\n" ++
  "### 3. Return Format  \n- Return a **list of strings**, where each string is a chunk.\n"

/-- Oracles for `SemanticChunker.chunk`: `count` is the tiktoken token
counter, `presplit` is `_split_text` (tiktoken encode/decode on raw
token boundaries, external), and `llm` maps a structured-completion
prompt to the `chunks` list of the parsed response. -/
structure ChunkerEnv where
  count : String → Nat
  presplit : String → Nat → List String
  llm : String → List String

/-- Step 1 of `SemanticChunker.chunk` for one document: pre-split into
super-blocks when the document exceeds `limit // SAFETY_DIVISOR`
tokens. -/
def semanticSuperBlocks (env : ChunkerEnv) (limit : Nat) (t : String) : List String :=
  let max_tokens := limit / SAFETY_DIVISOR
  if max_tokens < env.count t then env.presplit t max_tokens else [t]

/-- Step 2: one structured completion per super-block, accumulating the
returned chunk lists. -/
def semanticPreChunks (env : ChunkerEnv) (limit : Nat) (t : String) : List String :=
  (semanticSuperBlocks env limit t).flatMap (fun block =>
    env.llm (chunkPromptBase ++ "\n\n## Original Text: " ++ block))

/-- The exact ceiling `ceil(tokens / DESIRED_CHUNK_TOKENS)` computed by
the second pass (`math.ceil` over float division in the source). -/
def expectedChunks (tokens : Nat) : Nat :=
  (tokens + DESIRED_CHUNK_TOKENS - 1) / DESIRED_CHUNK_TOKENS

/-- Step 3 for one chunk: a chunk over the token ceiling is replaced by
whatever list the refinement structured completion returns (the
returned pieces are not themselves re-checked); a chunk at or under the
ceiling is kept. -/
def semanticRefine (env : ChunkerEnv) (chunk : String) : List String :=
  if DESIRED_CHUNK_TOKENS < env.count chunk then
    env.llm (chunkPromptBase ++ "\n\n## Original Text: " ++ chunk ++
      "\n\n## Desired Number of Chunks (if breaking does not defy Instruction # 2): " ++
      toString (expectedChunks (env.count chunk)))
  else
    [chunk]

/-- Method `SemanticChunker.chunk` for one document. -/
def semanticChunkDoc (env : ChunkerEnv) (limit : Nat) (t : String) : List String :=
  (semanticPreChunks env limit t).flatMap (semanticRefine env)

/-- Method `SemanticChunker.chunk`: one chunk list per input document. -/
def semanticChunk (env : ChunkerEnv) (limit : Nat) (texts : List String) :
    List (List String) :=
  texts.map (semanticChunkDoc env limit)

/-- A 500-character chunk: over the 450 ceiling under a length-based
token-counting profile. -/
def cexLong : String := String.mk (List.replicate 500 'a')

/-- Concrete chunker environment whose model always answers with the
over-long chunk, under a one-token-per-character counting profile. -/
def cexChunkEnv : ChunkerEnv where
  count := fun s => s.length
  presplit := fun s _ => [s]
  llm := fun _ => [cexLong]

/-- Concrete chunker environment whose model always answers with short
chunks. -/
def okChunkEnv : ChunkerEnv where
  count := fun s => s.length
  presplit := fun s _ => [s]
  llm := fun _ => ["short chunk"]

-- ==============================================================
-- MultiAgent (agents.py lines 467-531)
-- ==============================================================

/-- Pydantic `ConductorResponse`. -/
structure ConductorResponse where
  agent_integer : Int
  explanation : String

/-- Python list indexing `l[i]` with negative-index wraparound:
`some` when the access succeeds, `none` models `IndexError`. -/
def pyGet {α : Type} (l : List α) (i : Int) : Option α :=
  if 0 ≤ i then l[i.toNat]?
  else if 0 ≤ (l.length : Int) + i then l[((l.length : Int) + i).toNat]?
  else none

/-- State a constructed `MultiAgent` holds, with the conductor
structured completion as an oracle (system prompt, full prompt ↦ parsed
response) and each backend as an opaque query function over its default
query options of type `K`. -/
structure MultiAgentState (K : Type) where
  conductor : String → String → ConductorResponse
  agent_names_ : List String
  agents_ : List (String → K → String)
  agent_query_kwargs_ : List K
  system_prompt_ : String
  prompt_ : String

/-- Method `MultiAgent.query`: one conductor structured completion, then
unchecked indexing into the agent lists; `.ok` carries the forwarded
answer together with the recorded backend name (`last_agent_name_`). -/
def multiQuery {K : Type} (s : MultiAgentState K) (prompt : String) :
    Except String (String × String) :=
  let response := s.conductor s.system_prompt_ (s.prompt_ ++ prompt)
  let agent_index := response.agent_integer
  match pyGet s.agent_names_ agent_index, pyGet s.agents_ agent_index,
        pyGet s.agent_query_kwargs_ agent_index with
  | some nm, some ag, some kw => .ok (ag prompt kw, nm)
  | _, _, _ => .error "IndexError: list index out of range"

/-- Concrete two-backend router whose classifier picks index 1. -/
def multiAgentW : MultiAgentState Nat where
  conductor := fun _ _ => ⟨1, "stats question"⟩
  agent_names_ := ["Text_Agent", "Database_Agent"]
  agents_ := [fun _ _ => "text answer", fun _ k => "db answer " ++ toString k]
  agent_query_kwargs_ := [0, 7]
  system_prompt_ := "sys"
  prompt_ := "cats"

-- ==============================================================
-- ChromaDBVectorDB.initialize_collection (vector_databases.py 165-188)
-- ==============================================================

/-- Method `initialize_collection`: `clientInitialized` models whether
`initialize_db` has set `self.client_`; on success the pair passed to
the external `get_or_create_collection` (name and the configured
`hnsw:space` metric) is returned. -/
def initializeCollection (clientInitialized : Bool) (distance_measure collection_name : String) :
    Except String (String × String) :=
  if !clientInitialized then
    .error "Database is not initialized. Call initialize_db first."
  else if pyIn " " collection_name then
    .error "Collection name cannot contain spaces."
  else
    .ok (collection_name, distance_measure)

-- ==============================================================
-- TextExtractor.extract (text_extractors.py 546-581)
-- ==============================================================

/-- Supported extensions. -/
def FILE_TYPES : List String :=
  ["pdf", "ppt", "pptx", "pptm", "doc", "docx", "docm", "txt"]

/-- Python `str.lower` (ASCII case folding suffices for extensions). -/
def pyLower (s : String) : String :=
  String.mk (s.toList.map Char.toLower)

/-- Python `str.split(sep)` for a single-character separator, on
character lists. -/
def splitOnChar (sep : Char) : List Char → List (List Char)
  | [] => [[]]
  | c :: cs =>
    let r := splitOnChar sep cs
    if c == sep then [] :: r
    else
      match r with
      | [] => [[c]]
      | h :: t2 => (c :: h) :: t2

/-- Python `s.split('.')` returning strings. -/
def pySplitDot (s : String) : List String :=
  (splitOnChar '.' s.toList).map String.mk

/-- Helper `TextExtractor._get_file_type`: lowercase, split on dots, last
piece, lowercased again. -/
def getFileType (filepath : String) : String :=
  pyLower ((pySplitDot (pyLower filepath)).getLastD "")

/-- The external per-format extraction capabilities consumed by
`extract`. -/
structure ExtractEnv where
  pdf : String → String
  ppt : String → String
  doc : String → String
  txt : String → String

/-- Method `TextExtractor.extract`: per file, detect the type; unsupported
types are logged and skipped (no entry, no exception); supported types
dispatch by substring tests on the extension. -/
def textExtract (env : ExtractEnv) : List String → List String
  | [] => []
  | file :: rest =>
    let doc_type := getFileType file
    if FILE_TYPES.contains doc_type then
      if pyIn "pdf" doc_type then env.pdf file :: textExtract env rest
      else if pyIn "ppt" doc_type then env.ppt file :: textExtract env rest
      else if pyIn "doc" doc_type then env.doc file :: textExtract env rest
      else if pyIn "txt" doc_type then env.txt file :: textExtract env rest
      else textExtract env rest
    else textExtract env rest

/-- The entry `extract` produces for one path: `some` exactly when the
extension is supported, carrying the dispatched extraction. -/
def extractSupported? (env : ExtractEnv) (file : String) : Option String :=
  let doc_type := getFileType file
  if FILE_TYPES.contains doc_type then
    if pyIn "pdf" doc_type then some (env.pdf file)
    else if pyIn "ppt" doc_type then some (env.ppt file)
    else if pyIn "doc" doc_type then some (env.doc file)
    else if pyIn "txt" doc_type then some (env.txt file)
    else none
  else none

/-- Concrete extraction environment for the counterexample. -/
def cexExtractEnv : ExtractEnv where
  pdf := fun _ => "pdf text"
  ppt := fun _ => "ppt text"
  doc := fun _ => "doc text"
  txt := fun _ => "txt text"

-- ==============================================================
-- Helper lemmas about string embedding
-- ==============================================================

theorem strInfix_appendLeft {s t : String} (u : String) (h : strInfix s t) :
    strInfix s (u ++ t) := by
  obtain ⟨pre, post, rfl⟩ := h
  exact ⟨u ++ pre, post, by simp [String.append_assoc]⟩

theorem strInfix_appendRight {s t : String} (u : String) (h : strInfix s t) :
    strInfix s (t ++ u) := by
  obtain ⟨pre, post, rfl⟩ := h
  exact ⟨pre, post ++ u, by simp [String.append_assoc]⟩

theorem strInfix_refl (s : String) : strInfix s s :=
  ⟨"", "", by simp⟩

theorem strInfix_of_mem_pyJoin (sep : String) {d : String} :
    ∀ {parts : List String}, d ∈ parts → strInfix d (pyJoin sep parts)
  | [], h => absurd h (List.not_mem_nil d)
  | [x], h => by
      rcases List.mem_singleton.mp h with rfl
      exact strInfix_refl d
  | x :: y :: rest, h => by
      rcases List.mem_cons.mp h with rfl | h2
      · exact ⟨"", sep ++ pyJoin sep (y :: rest), by
          simp [pyJoin, String.append_assoc]⟩
      · have ih := strInfix_of_mem_pyJoin sep h2
        have : strInfix d (x ++ sep ++ pyJoin sep (y :: rest)) :=
          strInfix_appendLeft (x ++ sep) ih
        simpa [pyJoin] using this

/-- Every retrieved chunk occurs verbatim inside the prompt built by
`ChromaAgent.query`. -/
theorem mem_docs_strInfix_ragPrompt {d : String} {docs : List String}
    (prompt : String) (h : d ∈ docs) : strInfix d (ragPrompt docs prompt) := by
  have h1 : strInfix d (ragContextStr docs) := by
    have hmem : ("- " ++ d) ∈ docs.map (fun doc => "- " ++ doc) :=
      List.mem_map_of_mem _ h
    have := strInfix_of_mem_pyJoin "\n\n" hmem
    obtain ⟨pre, post, hp⟩ := this
    exact ⟨pre ++ "- ", post, by simp [ragContextStr, hp, String.append_assoc]⟩
  have h2 : strInfix d (ragSystemPrompt ++ "### Context ###\n" ++ ragContextStr docs) := by
    have := strInfix_appendLeft (ragSystemPrompt ++ "### Context ###\n") h1
    simpa [String.append_assoc] using this
  have h3 := strInfix_appendRight ("\n\n### Question ###\n" ++ prompt) h2
  unfold ragPrompt
  obtain ⟨pre, post, hp⟩ := h3
  exact ⟨pre, post, by
    rw [← hp]
    simp [String.append_assoc]⟩

-- ==============================================================
-- C1, C9, C10
-- ==============================================================

/-- C1: when retrieval returns a non-empty distance list, the
confidence gate of `ChromaAgent.query` is total: if the minimum
distance exceeds `max_distance` the method returns the refusal value
`None` and issues no completion call; if the minimum distance is at
most `max_distance` it issues exactly one free-text completion over
the prompt embedding all retrieved chunks and returns its result. -/
theorem chromaQuery_confidence_gate (agent : ChromaAgent) (prompt : String)
    (k : Nat) (max_distance : ℚ)
    (hne : (agent.vectordb_.retrieve prompt k).2 ≠ []) :
    ∃ m : ℚ, pyMin (agent.vectordb_.retrieve prompt k).2 = some m ∧
      (max_distance < m →
        chromaQuery agent prompt k max_distance = (.ok none, 0)) ∧
      (m ≤ max_distance →
        chromaQuery agent prompt k max_distance =
          (.ok (some (agent.llm_.query
            (ragPrompt (agent.vectordb_.retrieve prompt k).1 prompt))), 1) ∧
        ∀ d ∈ (agent.vectordb_.retrieve prompt k).1,
          strInfix d (ragPrompt (agent.vectordb_.retrieve prompt k).1 prompt)) := by
  rcases hds : (agent.vectordb_.retrieve prompt k).2 with _ | ⟨x, xs⟩
  · exact absurd hds hne
  · refine ⟨xs.foldl min x, rfl, ?_, ?_⟩
    · intro hgt
      unfold chromaQuery
      simp [hds, pyMin, hgt]
    · intro hle
      constructor
      · unfold chromaQuery
        simp [hds, pyMin, not_lt.mpr hle]
      · intro d hd
        exact mem_docs_strInfix_ragPrompt prompt hd

/-- Witness for C1 at a concrete agent: distances `[9/10]` against
`max_distance = 13/20` trigger the refusal with zero completion calls. -/
theorem chromaQuery_confidence_gate_witness :
    ∃ m : ℚ,
      pyMin ((VectorDB.mk (some "c") (fun _ _ => (["doc1"], [(9 : ℚ)/10]))).retrieve "q" 5).2 = some m ∧
      ((13 : ℚ)/20 < m →
        chromaQuery ⟨⟨fun _ => "ans"⟩, ⟨some "c", fun _ _ => (["doc1"], [(9 : ℚ)/10])⟩⟩ "q" 5 ((13 : ℚ)/20) = (.ok none, 0)) ∧
      (m ≤ (13 : ℚ)/20 →
        chromaQuery ⟨⟨fun _ => "ans"⟩, ⟨some "c", fun _ _ => (["doc1"], [(9 : ℚ)/10])⟩⟩ "q" 5 ((13 : ℚ)/20) =
          (.ok (some ((LLM.mk (fun _ => "ans")).query
            (ragPrompt ((VectorDB.mk (some "c") (fun _ _ => (["doc1"], [(9 : ℚ)/10]))).retrieve "q" 5).1 "q"))), 1) ∧
        ∀ d ∈ ((VectorDB.mk (some "c") (fun _ _ => (["doc1"], [(9 : ℚ)/10]))).retrieve "q" 5).1,
          strInfix d (ragPrompt ((VectorDB.mk (some "c") (fun _ _ => (["doc1"], [(9 : ℚ)/10]))).retrieve "q" 5).1 "q")) :=
  chromaQuery_confidence_gate ⟨⟨fun _ => "ans"⟩, ⟨some "c", fun _ _ => (["doc1"], [(9 : ℚ)/10])⟩⟩ "q" 5 ((13 : ℚ)/20) (by decide)

/-- C9: when the vector store returns empty document and distance
lists, `ChromaAgent.query` raises (Python: `min` of an empty sequence)
for every `max_distance`; it returns neither the refusal `None` nor an
answer. -/
theorem chromaQuery_empty_retrieval_raises (agent : ChromaAgent)
    (prompt : String) (k : Nat) (max_distance : ℚ)
    (hempty : agent.vectordb_.retrieve prompt k = ([], [])) :
    chromaQuery agent prompt k max_distance =
      (.error "ValueError: min() arg is an empty sequence", 0) := by
  unfold chromaQuery
  simp [hempty, pyMin]

/-- Witness for C9 at a concrete agent whose store returns empty lists. -/
theorem chromaQuery_empty_retrieval_raises_witness :
    chromaQuery ⟨⟨fun _ => "ans"⟩, ⟨some "c", fun _ _ => ([], [])⟩⟩ "q" 5 ((13 : ℚ)/20) =
      (.error "ValueError: min() arg is an empty sequence", 0) :=
  chromaQuery_empty_retrieval_raises ⟨⟨fun _ => "ans"⟩, ⟨some "c", fun _ _ => ([], [])⟩⟩ "q" 5 ((13 : ℚ)/20) rfl

/-- C10: constructing a `ChromaAgent` over a vector database with no
attached collection raises `ValueError`; with an attached collection
construction succeeds and stores the given llm and vector database
unchanged. -/
theorem chromaInit_collection_check (llm : LLM) (vectordb : VectorDB) :
    (vectordb.collection_ = none →
      chromaInit llm vectordb = .error "No collection attached to the vector database.") ∧
    (vectordb.collection_ ≠ none →
      chromaInit llm vectordb = .ok { llm_ := llm, vectordb_ := vectordb }) := by
  constructor
  · intro h
    unfold chromaInit
    simp [h]
  · intro h
    unfold chromaInit
    simp [h]

/-- Witness for C10: a database with an attached collection yields a
successfully constructed agent holding it unchanged. -/
theorem chromaInit_collection_check_witness :
    ((VectorDB.mk (some "col") (fun _ _ => ([], []))).collection_ ≠ none) ∧
    chromaInit ⟨fun _ => "a"⟩ ⟨some "col", fun _ _ => ([], [])⟩ =
      .ok { llm_ := ⟨fun _ => "a"⟩, vectordb_ := ⟨some "col", fun _ _ => ([], [])⟩ } :=
  ⟨by simp, (chromaInit_collection_check ⟨fun _ => "a"⟩ ⟨some "col", fun _ _ => ([], [])⟩).2 (by simp)⟩

-- ==============================================================
-- C2, C3
-- ==============================================================

/-- When every SQL execution raises, each loop iteration generates once
and the final iteration returns the failure message: from any start
state `attempts ≤ retries` the loop makes `retries - attempts + 1`
further generations. -/
theorem sqliteQueryLoop_all_fail (env : SQLiteEnv) (prompt query schema_json : String)
    (retries : Nat) (hfail : ∀ q : String, ∃ m tr, env.exec q = .err m tr) :
    ∀ d attempts calls prevSql error_context, retries - attempts = d → attempts ≤ retries →
      ∃ m, sqliteQueryLoop env prompt query schema_json retries attempts calls prevSql error_context
        = (sqlFailMsg retries m, calls + d + 1) := by
  intro d
  induction d with
  | zero =>
    intro attempts calls prevSql error_context hd hle
    have heq : retries ≤ attempts := by omega
    obtain ⟨m, tr, hq⟩ :=
      hfail (sqliteGenResponse env query schema_json attempts calls prevSql error_context).sql_query
    refine ⟨m, ?_⟩
    rw [sqliteQueryLoop]
    simp only [dif_pos hle, hq, dif_pos heq]
  | succ n ih =>
    intro attempts calls prevSql error_context hd hle
    have hlt : ¬ retries ≤ attempts := by omega
    obtain ⟨m, tr, hq⟩ :=
      hfail (sqliteGenResponse env query schema_json attempts calls prevSql error_context).sql_query
    obtain ⟨m2, hrec⟩ := ih (attempts + 1) (calls + 1)
      (sqliteGenResponse env query schema_json attempts calls prevSql error_context).sql_query
      (m ++ "\n\n" ++ tr) (by omega) (by omega)
    refine ⟨m2, ?_⟩
    rw [sqliteQueryLoop]
    simp only [dif_pos hle, hq, dif_neg hlt, hrec]
    congr 1
    omega

/-- C2: when every execution of a generated SQL query raises,
`SQLiteAgent.query(prompt, retries := N)` performs exactly `N + 1`
structured-completion generations and returns (does not raise) the
failure message, which names the exception text and the attempt count
`N + 1`. -/
theorem sqliteQuery_all_fail (env : SQLiteEnv) (prompt : String)
    (db_desc : Option String) (schema_json : String) (retries : Nat)
    (hfail : ∀ q : String, ∃ m tr, env.exec q = .err m tr) :
    ∃ m, sqliteQuery env prompt db_desc schema_json retries = (sqlFailMsg retries m, retries + 1) ∧
      strInfix m (sqlFailMsg retries m) ∧
      strInfix (toString (retries + 1)) (sqlFailMsg retries m) := by
  obtain ⟨m, h⟩ := sqliteQueryLoop_all_fail env prompt
    (sqliteBaseQuery db_desc schema_json prompt) schema_json retries hfail
    retries 0 0 "" "" (by omega) (by omega)
  refine ⟨m, ?_, ?_, ?_⟩
  · unfold sqliteQuery
    rw [h]
    congr 1
    omega
  · exact ⟨"⚠️ SQL query failed after " ++ toString (retries + 1) ++ " attempt(s): ", "",
      by simp [sqlFailMsg, String.append_assoc]⟩
  · exact ⟨"⚠️ SQL query failed after ", " attempt(s): " ++ m,
      by simp [sqlFailMsg, String.append_assoc]⟩

/-- Witness for C2 with `N = 2` and an execution oracle that always
raises: three generations, and the failure message is returned. -/
theorem sqliteQuery_all_fail_witness :
    ∃ m, sqliteQuery sqlEnvAllFail "how many rows" none "schema" 2 = (sqlFailMsg 2 m, 2 + 1) ∧
      strInfix m (sqlFailMsg 2 m) ∧
      strInfix (toString (2 + 1)) (sqlFailMsg 2 m) :=
  sqliteQuery_all_fail sqlEnvAllFail "how many rows" none "schema" 2
    (fun _ => ⟨"no such table: t", "Traceback", rfl⟩)

/-- C3: if the first generated query raises on execution and the
query generated by the repair attempt executes with a non-empty result
set, `SQLiteAgent.query` with `retries = 1` returns the follow-up
free-text summarization (or the fixed fallback if that completion is
falsy), the summarization prompt embeds the question, the executed
query, and the result rows, and exactly 2 structured-completion
generations occur. -/
theorem sqliteQuery_repair_success (env : SQLiteEnv) (prompt : String)
    (db_desc : Option String) (schema_json m tr json : String) (r0 r1 : SQLResponse)
    (hg0 : env.gen 0 sqliteSystemPrompt (sqliteBaseQuery db_desc schema_json prompt) = r0)
    (he0 : env.exec r0.sql_query = .err m tr)
    (hg1 : env.gen 1 sqliteRetrySystemPrompt
      (sqliteRetryQuery (sqliteBaseQuery db_desc schema_json prompt) r0.sql_query
        (m ++ "\n\n" ++ tr) schema_json) = r1)
    (he1 : env.exec r1.sql_query = .table json) :
    sqliteQuery env prompt db_desc schema_json 1 =
      ((if env.summarize (sqlAnswerPrompt prompt r1.sql_query json) = "" then sqliteSummaryFallback
        else env.summarize (sqlAnswerPrompt prompt r1.sql_query json)), 2) ∧
      strInfix prompt (sqlAnswerPrompt prompt r1.sql_query json) ∧
      strInfix r1.sql_query (sqlAnswerPrompt prompt r1.sql_query json) ∧
      strInfix json (sqlAnswerPrompt prompt r1.sql_query json) := by
  refine ⟨?_, ?_, ?_, ?_⟩
  · unfold sqliteQuery
    rw [sqliteQueryLoop]
    have h01 : (0:Nat) ≤ 1 := by omega
    have hr0 : sqliteGenResponse env (sqliteBaseQuery db_desc schema_json prompt)
        schema_json 0 0 "" "" = r0 := by
      simp [sqliteGenResponse, hg0]
    simp only [dif_pos h01, hr0, he0]
    have h10 : ¬ (1:Nat) ≤ 0 := by omega
    simp only [dif_neg h10]
    rw [sqliteQueryLoop]
    have h11 : (1:Nat) ≤ 1 := by omega
    have hr1 : sqliteGenResponse env (sqliteBaseQuery db_desc schema_json prompt)
        schema_json 1 1 r0.sql_query (m ++ "\n\n" ++ tr) = r1 := by
      simp [sqliteGenResponse, hg1]
    simp only [dif_pos h11, hr1, he1]
  · exact ⟨"Given the following question, SQL query, and supporting data, " ++
      "please provide a clear and concise answer to the user’s question.\n\n" ++ "Question:\n",
      "\n\n" ++ "SQL Query:\n" ++ r1.sql_query ++ "\n\n" ++ "Supporting Data:\n" ++ json,
      by simp [sqlAnswerPrompt, String.append_assoc]⟩
  · exact ⟨"Given the following question, SQL query, and supporting data, " ++
      "please provide a clear and concise answer to the user’s question.\n\n" ++ "Question:\n" ++
      prompt ++ "\n\n" ++ "SQL Query:\n",
      "\n\n" ++ "Supporting Data:\n" ++ json,
      by simp [sqlAnswerPrompt, String.append_assoc]⟩
  · exact ⟨"Given the following question, SQL query, and supporting data, " ++
      "please provide a clear and concise answer to the user’s question.\n\n" ++ "Question:\n" ++
      prompt ++ "\n\n" ++ "SQL Query:\n" ++ r1.sql_query ++ "\n\n" ++ "Supporting Data:\n",
      "",
      by simp [sqlAnswerPrompt, String.append_assoc]⟩

/-- Witness for C3 on a concrete environment where the first query
raises and the repaired query returns rows: the summarized answer is
returned and exactly 2 generations occur. -/
theorem sqliteQuery_repair_success_witness :
    sqliteQuery sqlEnvRepair "the question" none "schema" 1 = ("final answer", 2) ∧
      strInfix "the question" (sqlAnswerPrompt "the question" "GOOD SQL" "rows-json") ∧
      strInfix "GOOD SQL" (sqlAnswerPrompt "the question" "GOOD SQL" "rows-json") ∧
      strInfix "rows-json" (sqlAnswerPrompt "the question" "GOOD SQL" "rows-json") := by
  have h := sqliteQuery_repair_success sqlEnvRepair "the question" none "schema"
    "syntax error" "Traceback" "rows-json" ⟨"BAD SQL", "e0"⟩ ⟨"GOOD SQL", "e1"⟩
    rfl rfl rfl rfl
  simpa [sqlEnvRepair] using h

-- ==============================================================
-- C5
-- ==============================================================

/-- C5: for both `OpenAILLM.query` and `OpenAILLM.structured_query`,
when the prompt token count plus `SAFETY_LIM` exceeds the configured
model published context limit, the call fails with the explicit
over-budget error before any request is sent (zero requests);
otherwise the pre-flight check passes and exactly one request is
issued. -/
theorem openaiQuery_token_budget (net : OpenAINet) (cfg : OpenAIModel)
    (prompt : String) (system_prompt : Option String) (lim : Nat)
    (hm : tokenLimitOf cfg.model = some lim) :
    (lim < cfg.count prompt + SAFETY_LIM →
      openaiQuery net cfg prompt system_prompt =
        (.error (overBudgetMsg (cfg.count prompt) lim), 0) ∧
      openaiStructuredQuery net cfg prompt system_prompt =
        (.error (overBudgetMsg (cfg.count prompt) lim), 0)) ∧
    (cfg.count prompt + SAFETY_LIM ≤ lim →
      openaiQuery net cfg prompt system_prompt =
        (.ok (net.complete (buildMessage prompt system_prompt)), 1) ∧
      openaiStructuredQuery net cfg prompt system_prompt =
        (.ok (net.completeParsed (buildMessage prompt system_prompt)), 1)) := by
  constructor
  · intro hover
    constructor <;>
      simp [openaiQuery, openaiStructuredQuery, checkTokenLimit, hm, hover]
  · intro hunder
    constructor <;>
      simp [openaiQuery, openaiStructuredQuery, checkTokenLimit, hm, not_lt.mpr hunder]

/-- Witness for C5: `gpt-4` (limit 32768) with a counter reporting
200000 tokens for every prompt — both calls fail fast with zero
requests sent. -/
theorem openaiQuery_token_budget_witness :
    (32768 < llmCfgOver.count "p" + SAFETY_LIM) ∧
    openaiQuery llmNetW llmCfgOver "p" none =
      (.error (overBudgetMsg (llmCfgOver.count "p") 32768), 0) ∧
    openaiStructuredQuery llmNetW llmCfgOver "p" none =
      (.error (overBudgetMsg (llmCfgOver.count "p") 32768), 0) :=
  ⟨by decide,
   (openaiQuery_token_budget llmNetW llmCfgOver "p" none 32768 rfl).1 (by decide)⟩

-- ==============================================================
-- C4
-- ==============================================================

set_option maxRecDepth 8000 in
/-- C4 counterexample: under a one-token-per-character counting
profile, a model whose refinement response is itself a 500-token chunk
makes `SemanticChunker.chunk` return a chunk over the
`DESIRED_CHUNK_TOKENS = 450` ceiling: the second pass does not
re-check the pieces the refinement completion returns. -/
theorem semanticChunk_ceiling_counterexample :
    semanticChunk cexChunkEnv 128000 ["hello"] = [[cexLong]] ∧
    DESIRED_CHUNK_TOKENS < cexChunkEnv.count cexLong := by
  constructor
  · rfl
  · decide

/-- C4 (amended): the token ceiling holds for every returned chunk
provided every chunk the model returns in a structured-completion
response (in particular every refinement response) is itself within
the ceiling; the code keeps any sub-ceiling chunk and replaces any
over-ceiling chunk with the refinement response unchecked. -/
theorem semanticChunk_ceiling_of_bounded_responses (env : ChunkerEnv) (limit : Nat)
    (hresp : ∀ p : String, ∀ c ∈ env.llm p, env.count c ≤ DESIRED_CHUNK_TOKENS) :
    ∀ texts : List String, ∀ doc ∈ semanticChunk env limit texts, ∀ c ∈ doc,
      env.count c ≤ DESIRED_CHUNK_TOKENS := by
  intro texts doc hdoc c hc
  obtain ⟨t, ht, rfl⟩ := List.mem_map.mp hdoc
  obtain ⟨pre, hpre, hcpre⟩ := List.mem_flatMap.mp hc
  unfold semanticRefine at hcpre
  by_cases hlong : DESIRED_CHUNK_TOKENS < env.count pre
  · rw [if_pos hlong] at hcpre
    exact hresp _ c hcpre
  · rw [if_neg hlong] at hcpre
    rcases List.mem_singleton.mp hcpre with rfl
    omega

/-- Witness for the amended C4: a model answering only with a short
chunk keeps every output under the ceiling. -/
theorem semanticChunk_ceiling_of_bounded_responses_witness :
    (∀ p : String, ∀ c ∈ okChunkEnv.llm p, okChunkEnv.count c ≤ DESIRED_CHUNK_TOKENS) ∧
    (∀ doc ∈ semanticChunk okChunkEnv 128000 ["hello"], ∀ c ∈ doc,
      okChunkEnv.count c ≤ DESIRED_CHUNK_TOKENS) :=
  ⟨fun _ c hc => by
      rcases List.mem_singleton.mp hc with rfl
      decide,
   semanticChunk_ceiling_of_bounded_responses okChunkEnv 128000
     (fun _ c hc => by
       rcases List.mem_singleton.mp hc with rfl
       decide) ["hello"]⟩

-- ==============================================================
-- C6
-- ==============================================================

/-- Optional indexing `l[n]?` is `some` exactly below the length. -/
theorem getElemOpt_isSome_iff {α : Type} (l : List α) (n : Nat) :
    (l[n]?).isSome = true ↔ n < l.length := by
  cases h : l[n]? with
  | none =>
    rw [List.getElem?_eq_none_iff] at h
    simp only [Option.isSome_none, Bool.false_eq_true, false_iff]
    omega
  | some a =>
    simp only [Option.isSome_some, true_iff]
    exact (List.getElem?_eq_some_iff.mp h).1

/-- Indexing `pyGet` succeeds exactly on the Python-valid index range
`-len ≤ i < len`. -/
theorem pyGet_isSome_iff {α : Type} (l : List α) (i : Int) :
    (pyGet l i).isSome = true ↔
      (-(l.length : Int) ≤ i ∧ i < (l.length : Int)) := by
  unfold pyGet
  by_cases h0 : 0 ≤ i
  · rw [if_pos h0, getElemOpt_isSome_iff]
    constructor
    · intro h
      omega
    · intro h
      omega
  · rw [if_neg h0]
    by_cases h1 : 0 ≤ (l.length : Int) + i
    · rw [if_pos h1, getElemOpt_isSome_iff]
      constructor
      · intro h
        omega
      · intro h
        omega
    · rw [if_neg h1]
      simp only [Option.isSome_none, Bool.false_eq_true, false_iff]
      omega

/-- C6: `MultiAgent.query` forwards the question with the configured
default query options to exactly the backend at the classifier index
and records that backend name; there is no bounds check, so a
Python-valid index succeeds and an out-of-range index fails with
`IndexError` rather than falling back. -/
theorem multiQuery_dispatch {K : Type} (s : MultiAgentState K) (prompt : String) (i : Int)
    (hi : (s.conductor s.system_prompt_ (s.prompt_ ++ prompt)).agent_integer = i)
    (hlen1 : s.agents_.length = s.agent_names_.length)
    (hlen2 : s.agent_query_kwargs_.length = s.agent_names_.length) :
    ((-(s.agent_names_.length : Int) ≤ i ∧ i < (s.agent_names_.length : Int)) →
      ∃ nm ag kw, pyGet s.agent_names_ i = some nm ∧ pyGet s.agents_ i = some ag ∧
        pyGet s.agent_query_kwargs_ i = some kw ∧
        multiQuery s prompt = .ok (ag prompt kw, nm)) ∧
    (¬(-(s.agent_names_.length : Int) ≤ i ∧ i < (s.agent_names_.length : Int)) →
      multiQuery s prompt = .error "IndexError: list index out of range") := by
  constructor
  · intro hin
    obtain ⟨nm, hnm⟩ := Option.isSome_iff_exists.mp
      ((pyGet_isSome_iff s.agent_names_ i).mpr hin)
    obtain ⟨ag, hag⟩ := Option.isSome_iff_exists.mp
      ((pyGet_isSome_iff s.agents_ i).mpr (by rw [hlen1]; exact hin))
    obtain ⟨kw, hkw⟩ := Option.isSome_iff_exists.mp
      ((pyGet_isSome_iff s.agent_query_kwargs_ i).mpr (by rw [hlen2]; exact hin))
    refine ⟨nm, ag, kw, hnm, hag, hkw, ?_⟩
    simp only [multiQuery, hi, hnm, hag, hkw]
  · intro hout
    have hnone : pyGet s.agent_names_ i = none := by
      cases hx : pyGet s.agent_names_ i with
      | none => rfl
      | some a =>
        exact absurd ((pyGet_isSome_iff s.agent_names_ i).mp (by rw [hx]; rfl)) hout
    simp only [multiQuery, hi, hnone]

/-- Witness for C6: a classifier answer of 1 over two backends forwards
to the second backend with its default options and records its name. -/
theorem multiQuery_dispatch_witness :
    ((-(multiAgentW.agent_names_.length : Int) ≤ 1 ∧
       (1 : Int) < (multiAgentW.agent_names_.length : Int))) ∧
    ∃ nm ag kw, pyGet multiAgentW.agent_names_ 1 = some nm ∧
      pyGet multiAgentW.agents_ 1 = some ag ∧
      pyGet multiAgentW.agent_query_kwargs_ 1 = some kw ∧
      multiQuery multiAgentW "how many points" = .ok (ag "how many points" kw, nm) :=
  ⟨by decide,
   (multiQuery_dispatch multiAgentW "how many points" 1 rfl rfl rfl).1 (by decide)⟩

-- ==============================================================
-- C7
-- ==============================================================

/-- C7 counterexample: a collection name containing a tab — whitespace
but not a space — passes the guard on an initialized store, so
`initialize_collection` does not fail, refuting the claim that it
fails whenever the name contains whitespace. -/
theorem initializeCollection_whitespace_counterexample :
    ("a\tb".toList.any Char.isWhitespace = true) ∧
    initializeCollection true "cosine" "a\tb" = .ok ("a\tb", "cosine") := by
  constructor
  · decide
  · rfl

/-- C7 (amended): `initialize_collection(name)` fails when the store
has not been initialized via `initialize_db`, fails when `name`
contains a space character (the guard checks only the literal space,
not all whitespace), and otherwise creates-or-attaches the collection
bound to the configured distance metric. -/
theorem initializeCollection_checks (clientInitialized : Bool) (d name : String) :
    (clientInitialized = false →
      initializeCollection clientInitialized d name =
        .error "Database is not initialized. Call initialize_db first.") ∧
    (clientInitialized = true → pyIn " " name = true →
      initializeCollection clientInitialized d name =
        .error "Collection name cannot contain spaces.") ∧
    (clientInitialized = true → pyIn " " name = false →
      initializeCollection clientInitialized d name = .ok (name, d)) := by
  refine ⟨fun h => ?_, fun h h2 => ?_, fun h h2 => ?_⟩
  · simp [initializeCollection, h]
  · simp [initializeCollection, h, h2]
  · simp [initializeCollection, h, h2]

/-- Witness for the amended C7: an initialized store and a space-free
name create the collection with the configured metric. -/
theorem initializeCollection_checks_witness :
    ((true : Bool) = true) ∧ (pyIn " " "docs" = false) ∧
    initializeCollection true "cosine" "docs" = .ok ("docs", "cosine") :=
  ⟨rfl, rfl, (initializeCollection_checks true "cosine" "docs").2.2 rfl rfl⟩

-- ==============================================================
-- C8
-- ==============================================================

/-- Every supported extension hits one of the four dispatch substring
tests. -/
theorem supportedDispatch :
    ∀ t ∈ FILE_TYPES,
      (pyIn "pdf" t || pyIn "ppt" t || pyIn "doc" t || pyIn "txt" t) = true := by
  decide

/-- One step of `extract`. -/
theorem textExtract_cons (env : ExtractEnv) (file : String) (rest : List String) :
    textExtract env (file :: rest) =
      match extractSupported? env file with
      | some d => d :: textExtract env rest
      | none => textExtract env rest := by
  simp only [textExtract, extractSupported?]
  split_ifs <;> rfl

/-- C8 counterexample: a single unsupported path yields an empty output
list rather than one entry per input path. -/
theorem textExtract_one_per_path_counterexample :
    textExtract cexExtractEnv ["a.xyz"] = [] ∧
    (["a.xyz"] : List String).length = 1 := by
  constructor
  · rfl
  · rfl

/-- C8 (amended): `extract` returns one entry per **supported** input
path, in input order, silently skipping unsupported file types — the
skip drops the entry, so the output length equals the number of
supported paths, not the number of inputs; no path raises. -/
theorem textExtract_per_supported_path (env : ExtractEnv) (files : List String) :
    textExtract env files = files.filterMap (extractSupported? env) ∧
    ∀ f : String, (extractSupported? env f).isSome = FILE_TYPES.contains (getFileType f) := by
  constructor
  · induction files with
    | nil => rfl
    | cons f rest ih =>
      rw [textExtract_cons, List.filterMap_cons]
      cases hx : extractSupported? env f <;> simp [ih]
  · intro f
    by_cases hc : FILE_TYPES.contains (getFileType f) = true
    · have hmem : getFileType f ∈ FILE_TYPES := by simpa using hc
      have hd := supportedDispatch (getFileType f) hmem
      rw [hc]
      simp only [extractSupported?, hc, if_true]
      split_ifs with h1 h2 h3 h4 <;> simp_all
    · have hc2 : FILE_TYPES.contains (getFileType f) = false := by
        simpa using hc
      simp only [extractSupported?, hc2]
      simp

end ProfsandmanAgents
